import Mathlib

/-!
# vtt: transcription + cleanup pipeline (`transcribe.js`)

A shallow embedding of `transcribe.js`.  The two remote providers, the file
system and the process environment are explicit inputs (`Env`); every
observable effect (diagnostic lines, primary-channel writes, provider calls)
is recorded, in order, in a trace of `Event`s.
-/

namespace Vtt

/-! ## JavaScript values that the program handles -/

/-- A thrown JavaScript `Error` object: its `name` and its `message`. -/
structure JSError where
  name : String
  message : String
deriving DecidableEq, Repr

/-- JavaScript `v || d` where `v` is a string or `undefined`/`null`:
the empty string and the absent value are both falsy. -/
def orElse (v : Option String) (d : String) : String :=
  match v with
  | some s => if s = "" then d else s
  | none => d

/-- JavaScript `!v` where `v` is a string or `undefined`. -/
def falsy (v : Option String) : Bool :=
  match v with
  | some s => s == ""
  | none => true

/-- JavaScript `s.startsWith(p)`, on the characters of the two strings. -/
def startsWith (s p : String) : Bool :=
  p.data.isPrefixOf s.data

/-! ## Node's `path` module (POSIX flavour) and `toLowerCase` -/

/-- The last portion of a path, as a character list: trailing slashes are
dropped, then everything up to and including the last remaining slash. -/
def lastPortion (cs : List Char) : List Char :=
  (((cs.reverse.dropWhile (fun c => c == '/')).takeWhile (fun c => c != '/'))).reverse

/-- Node's `path.basename(p)` without a suffix argument. -/
def basename (p : String) : String :=
  String.mk (lastPortion p.data)

/-- Node's `path.extname(p)` (POSIX): from the last dot of the last portion
to its end; empty when there is no dot, when the last dot is the first
character of the portion, or when the portion is `..`. -/
def extname (p : String) : String :=
  let portion := lastPortion p.data
  let rev := portion.reverse
  let afterDot := rev.takeWhile (fun c => c != '.')
  match rev.dropWhile (fun c => c != '.') with
  | [] => ""
  | _ :: before =>
    if before = [] then ""
    else if portion = ['.', '.'] then ""
    else String.mk ('.' :: afterDot.reverse)

/-- JavaScript `s.toLowerCase()` on the ASCII range: `A`-`Z` become `a`-`z`,
every other character (the dot and the characters outside ASCII among them)
is kept as it is. -/
def toLowerCase (s : String) : String :=
  String.mk (s.data.map Char.toLower)

/-- What reading a property of a JavaScript object literal can give. -/
inductive Property where
  /-- an own property holding a string -/
  | str (value : String)
  /-- a member inherited from `Object.prototype` (a function or an object) -/
  | inherited (key : String)
  /-- the value `undefined` -/
  | undefined
deriving DecidableEq, Repr

/-- The property names every object literal inherits from `Object.prototype`. -/
def objectPrototypeKeys : List String :=
  ["constructor", "__proto__", "hasOwnProperty", "isPrototypeOf",
   "propertyIsEnumerable", "toLocaleString", "toString", "valueOf",
   "__defineGetter__", "__defineSetter__", "__lookupGetter__", "__lookupSetter__"]

/-- The table `mimeTypes` of `getAudioMimeType`, read as `mimeTypes[ext]`. -/
def mimeTypes (ext : String) : Property :=
  if ext = ".wav" then .str "audio/wav"
  else if ext = ".mp3" then .str "audio/mpeg"
  else if ext = ".m4a" then .str "audio/mp4"
  else if ext = ".flac" then .str "audio/flac"
  else if ext = ".ogg" then .str "audio/ogg"
  else if ext = ".webm" then .str "audio/webm"
  else if ext ∈ objectPrototypeKeys then .inherited ext
  else .undefined

/-- The function `getAudioMimeType(filePath)`: `mimeTypes[ext] || "audio/wav"`. -/
def getAudioMimeType (filePath : String) : Property :=
  let ext := toLowerCase (extname filePath)
  match mimeTypes ext with
  | .str v => if v = "" then .str "audio/wav" else .str v
  | .inherited k => .inherited k
  | .undefined => .str "audio/wav"

/-! ## Requests and responses of the two providers -/

/-- The `File` object uploaded to the transcription provider. -/
structure AudioFile where
  data : List Nat
  name : String
  type : Property
deriving DecidableEq, Repr

/-- Argument of `mistralClient.audio.transcriptions.complete`. -/
structure TranscriptionRequest where
  file : AudioFile
  model : String
  language : String
  response_format : String
deriving DecidableEq, Repr

/-- A resolved transcription response; `text` may be absent. -/
structure TranscriptionResponse where
  text : Option String
deriving DecidableEq, Repr

/-- One role-tagged message of a chat request. -/
structure Message where
  role : String
  content : String
deriving DecidableEq, Repr

/-- Argument of `openaiClient.chat.completions.create`. -/
structure CleanupRequest where
  model : String
  messages : List Message
  temperature : ℚ
deriving DecidableEq

/-- The `message` of a completion choice; `content` may be absent. -/
structure ChatMessage where
  content : Option String
deriving DecidableEq, Repr

/-- One completion choice; `message` may be absent. -/
structure Choice where
  message : Option ChatMessage
deriving DecidableEq, Repr

/-- A resolved chat completion; the `choices` list may be absent. -/
structure ChatCompletion where
  choices : Option (List Choice)
deriving DecidableEq, Repr

/-! ## The environment of one invocation -/

/-- The three `fs` calls of `transcribeAudio`: `fs.existsSync(p)`, which
never throws, and `fs.statSync(p).size` and `fs.readFileSync(p)`, each of
which returns (the size in bytes, the bytes) or throws: an existing path may
be a directory, unreadable, too large to read, or gone by the time of the
call. -/
structure FileSystem where
  existsSync : String → Bool
  statSync : String → Except JSError Nat
  readFileSync : String → Except JSError (List Nat)

/-- Everything one run of `node transcribe.js ...` depends on: the two
credentials of `process.env`, the full `process.argv`, the file system and
the behaviour of the two remote providers (a resolved response or a thrown
error, per request). -/
structure Env where
  MISTRAL_API_KEY : Option String
  OPENAI_API_KEY : Option String
  argv : List String
  fs : FileSystem
  mistral : TranscriptionRequest → Except JSError TranscriptionResponse
  openai : CleanupRequest → Except JSError ChatCompletion

/-! ## Observable effects -/

/-- The diagnostic lines written with `console.error`, by call site. -/
inductive Diag where
  | missingKey (envVar : String)
  | processing (audioFilePath : String) (size : Nat)
  | sending
  | transcriptionCompleted (transcription : String)
  | transcriptionError (message : String)
  | cleaningUp (model : String)
  | cleanupCompleted (rawText cleanedText : String)
  | cleanupError (message : String)
  | fallingBack
  | usage
  | failed (message : String)
deriving DecidableEq, Repr

/-- One observable step of a run. -/
inductive Event where
  /-- a line written with `console.error`, on the secondary channel -/
  | stderr (d : Diag)
  /-- a chunk written to the primary channel -/
  | stdout (chunk : String)
  /-- a call of the transcription provider -/
  | transcriptionCall (req : TranscriptionRequest)
  /-- a call of the generation provider -/
  | completionCall (req : CleanupRequest)
deriving DecidableEq

/-- What `console.log(s)` does: it writes `s` and a newline to the primary channel. -/
def consoleLog (s : String) : Event :=
  .stdout (s ++ "\n")

/-- A finished process: what it did, in order, and its exit code. -/
structure Run where
  trace : List Event
  exitCode : Nat
deriving DecidableEq

/-- The chunks written to the primary channel, in order. -/
def stdoutChunks (tr : List Event) : List String :=
  tr.filterMap (fun ev => match ev with | .stdout c => some c | _ => none)

/-- The requests sent to the transcription provider, in order. -/
def transcriptionCalls (tr : List Event) : List TranscriptionRequest :=
  tr.filterMap (fun ev => match ev with | .transcriptionCall r => some r | _ => none)

/-- The requests sent to the generation provider, in order. -/
def completionCalls (tr : List Event) : List CleanupRequest :=
  tr.filterMap (fun ev => match ev with | .completionCall r => some r | _ => none)

/-- The diagnostic lines, in order. -/
def diagnostics (tr : List Event) : List Diag :=
  tr.filterMap (fun ev => match ev with | .stderr d => some d | _ => none)

/-- Everything the primary channel received. -/
def Run.stdout (r : Run) : String :=
  String.join (stdoutChunks r.trace)

/-! ## `transcribeAudio` -/

/-- The request built at lines 55-67 of `transcribe.js` from the bytes read
at line 53. -/
def transcriptionRequest (audioBuffer : List Nat) (audioFilePath : String) :
    TranscriptionRequest :=
  let audioFile : AudioFile :=
    { data := audioBuffer, name := basename audioFilePath, type := getAudioMimeType audioFilePath }
  { file := audioFile, model := "voxtral-mini-latest", language := "en", response_format := "text" }

/-- The `try` block of `transcribeAudio`.  Whatever is thrown in it (by the
two `throw` statements, by `fs.statSync`, by `fs.readFileSync` or by the
provider call) leaves the block at that point. -/
def transcribeAudioBody (env : Env) (audioFilePath : String) : List Event × Except JSError String :=
  if !env.fs.existsSync audioFilePath then
    ([], .error ⟨"Error", "Audio file not found: " ++ audioFilePath⟩)
  else
    match env.fs.statSync audioFilePath with
    | .error e => ([], .error e)
    | .ok size =>
      let log1 := [Event.stderr (.processing audioFilePath size)]
      if size < 1000 then
        (log1, .error ⟨"Error", "Audio file is too small - likely silent or no audio recorded"⟩)
      else
        match env.fs.readFileSync audioFilePath with
        | .error e => (log1, .error e)
        | .ok audioBuffer =>
          let req := transcriptionRequest audioBuffer audioFilePath
          let log2 := log1 ++ [Event.stderr .sending, Event.transcriptionCall req]
          match env.mistral req with
          | .error e => (log2, .error e)
          | .ok response =>
            let transcription := orElse response.text ""
            (log2 ++ [Event.stderr (.transcriptionCompleted transcription)], .ok transcription)

/-- The function `transcribeAudio(audioFilePath)`: the `try` block, and the `catch` that
logs the message and throws the same error again. -/
def transcribeAudio (env : Env) (audioFilePath : String) : List Event × Except JSError String :=
  match transcribeAudioBody env audioFilePath with
  | (log, .error error) => (log ++ [Event.stderr (.transcriptionError error.message)], .error error)
  | (log, .ok transcription) => (log, .ok transcription)

/-! ## `cleanupText` -/

/-- The request built at lines 83-105 of `transcribe.js`. -/
def cleanupRequest (rawText : String) (useGPT5 : Bool) : CleanupRequest :=
  let model := if useGPT5 then "gpt-5-mini" else "gpt-5-nano"
  let systemPrompt :=
    if useGPT5 then "You are a helpful assistant who gives brief, information dense answers."
    else "You are a text cleanup assistant. Remove filler words (um, uh, like, you know, etc.), fix grammar, improve readability, and format the text nicely while preserving the original meaning and tone. Keep the text concise but natural. Do not add content that wasn't in the original text. Respond with only the cleaned text."
  { model := model,
    messages :=
      [ { role := "system", content := systemPrompt },
        { role := "user",
          content := if useGPT5 then rawText
            else "Please clean up and format this transcribed text:\n\n" ++ rawText } ],
    temperature := if useGPT5 then 1 else 0.3 }

/-- The expression `response.choices[0]?.message?.content`: reading index 0 of an absent
`choices` throws a `TypeError`; an empty list, an absent `message` or an
absent `content` give `undefined`. -/
def firstContent (response : ChatCompletion) : Except JSError (Option String) :=
  match response.choices with
  | none => .error ⟨"TypeError", "Cannot read properties of undefined (reading '0')"⟩
  | some [] => .ok none
  | some (choice :: _) =>
    match choice.message with
    | none => .ok none
    | some message => .ok message.content

/-- The `try` block of `cleanupText`. -/
def cleanupTextBody (env : Env) (rawText : String) (useGPT5 : Bool) :
    List Event × Except JSError String :=
  let req := cleanupRequest rawText useGPT5
  let log1 := [Event.stderr (.cleaningUp req.model), Event.completionCall req]
  match env.openai req with
  | .error e => (log1, .error e)
  | .ok response =>
    match firstContent response with
    | .error e => (log1, .error e)
    | .ok content =>
      let cleanedText := orElse content rawText
      (log1 ++ [Event.stderr (.cleanupCompleted rawText cleanedText)], .ok cleanedText)

/-- The function `cleanupText(rawText, useGPT5 = false)`: an omitted second argument
(`none`) takes the default `false`; the `catch` logs two lines and returns
`rawText`. -/
def cleanupText (env : Env) (rawText : String) (useGPT5 : Option Bool) :
    List Event × Except JSError String :=
  match cleanupTextBody env rawText (useGPT5.getD false) with
  | (log, .error error) =>
    (log ++ [Event.stderr (.cleanupError error.message), Event.stderr .fallingBack], .ok rawText)
  | (log, .ok cleanedText) => (log, .ok cleanedText)

/-! ## `main` and the module's top level -/

/-- The arguments `process.argv.slice(2)`. -/
def args (env : Env) : List String :=
  env.argv.drop 2

/-- The mode flag `args.includes("--gpt5")`. -/
def useGPT5 (env : Env) : Bool :=
  (args env).contains "--gpt5"

/-- The selected path `args.find((arg) => !arg.startsWith("--"))`. -/
def audioFilePath (env : Env) : Option String :=
  (args env).find? (fun arg => !startsWith arg "--")

/-- The function `main()`. -/
def main (env : Env) : Run :=
  if falsy (audioFilePath env) then
    { trace := [Event.stderr .usage], exitCode := 1 }
  else
    let path := (audioFilePath env).getD ""
    match transcribeAudio env path with
    | (log1, .error error) =>
      { trace := log1 ++ [Event.stderr (.failed error.message)], exitCode := 1 }
    | (log1, .ok transcription) =>
      match cleanupText env transcription (some (useGPT5 env)) with
      | (log2, .error error) =>
        { trace := log1 ++ log2 ++ [Event.stderr (.failed error.message)], exitCode := 1 }
      | (log2, .ok cleanedText) =>
        { trace := log1 ++ log2 ++ [consoleLog cleanedText], exitCode := 0 }

/-- The whole script run as `node transcribe.js ...`: the two credential
checks at module level, then `main()`. -/
def program (env : Env) : Run :=
  if falsy env.MISTRAL_API_KEY then
    { trace := [Event.stderr (.missingKey "MISTRAL_API_KEY")], exitCode := 1 }
  else if falsy env.OPENAI_API_KEY then
    { trace := [Event.stderr (.missingKey "OPENAI_API_KEY")], exitCode := 1 }
  else main env

/-! ## Sample environments -/

/-- A file system holding one 5000-byte recording, `rec.wav`. -/
def sampleFs : FileSystem :=
  { existsSync := fun p => p == "rec.wav",
    statSync := fun _ => .ok 5000,
    readFileSync := fun _ => .ok (List.replicate 5000 0) }

/-- A file system holding one directory, `recordings`: it exists, its size is
4096, and reading it as a file throws `EISDIR`. -/
def directoryFs : FileSystem :=
  { existsSync := fun p => p == "recordings",
    statSync := fun _ => .ok 4096,
    readFileSync := fun _ =>
      .error { name := "Error", message := "EISDIR: illegal operation on a directory, read" } }

/-- Both credentials set, `node transcribe.js rec.wav`, the transcription
provider answers with the sample transcript and the generation provider
throws. -/
def degradedEnv : Env :=
  { MISTRAL_API_KEY := some "mk", OPENAI_API_KEY := some "ok",
    argv := ["node", "transcribe.js", "rec.wav"],
    fs := sampleFs,
    mistral := fun _ => .ok { text := some "um so like i think uh this works" },
    openai := fun _ => .error { name := "Error", message := "503 Service Unavailable" } }

/-- Both credentials set, `node transcribe.js rec.wav`, the transcription
provider answers with the sample transcript and the generation provider
answers with one choice whose content is the empty string. -/
def emptyCleanupEnv : Env :=
  { MISTRAL_API_KEY := some "mk", OPENAI_API_KEY := some "ok",
    argv := ["node", "transcribe.js", "rec.wav"],
    fs := sampleFs,
    mistral := fun _ => .ok { text := some "um so like i think uh this works" },
    openai := fun _ => .ok { choices := some [{ message := some { content := some "" } }] } }

/-- Both credentials set, `node transcribe.js rec.wav`, both providers
answer: the transcript, and its cleaned form. -/
def successEnv : Env :=
  { MISTRAL_API_KEY := some "mk", OPENAI_API_KEY := some "ok",
    argv := ["node", "transcribe.js", "rec.wav"],
    fs := sampleFs,
    mistral := fun _ => .ok { text := some "um so like i think uh this works" },
    openai := fun _ =>
      .ok { choices := some [{ message := some { content := some "I think this works." } }] } }

/-- Both credentials set, `node transcribe.js rec.wav`, the transcription
provider throws. -/
def transcriptionDownEnv : Env :=
  { MISTRAL_API_KEY := some "mk", OPENAI_API_KEY := some "ok",
    argv := ["node", "transcribe.js", "rec.wav"],
    fs := sampleFs,
    mistral := fun _ => .error { name := "Error", message := "401 Unauthorized" },
    openai := fun _ =>
      .ok { choices := some [{ message := some { content := some "I think this works." } }] } }

/-- Both credentials set, `node transcribe.js missing.wav`: the path does
not exist. -/
def missingFileEnv : Env :=
  { MISTRAL_API_KEY := some "mk", OPENAI_API_KEY := some "ok",
    argv := ["node", "transcribe.js", "missing.wav"],
    fs := sampleFs,
    mistral := fun _ => .ok { text := some "um so like i think uh this works" },
    openai := fun _ =>
      .ok { choices := some [{ message := some { content := some "I think this works." } }] } }

/-- Both credentials set, `node transcribe.js recordings`: the argument names
a directory, and both providers answer every request. -/
def directoryEnv : Env :=
  { MISTRAL_API_KEY := some "mk", OPENAI_API_KEY := some "ok",
    argv := ["node", "transcribe.js", "recordings"],
    fs := directoryFs,
    mistral := fun _ => .ok { text := some "um so like i think uh this works" },
    openai := fun _ =>
      .ok { choices := some [{ message := some { content := some "I think this works." } }] } }

/-- The same invocation with another `process.argv`. -/
def withArgv (env : Env) (argv : List String) : Env :=
  { env with argv := argv }

/-- The events of the stages before cleanup: everything except the cleanup
stage's diagnostics, the generation call and the primary-channel write. -/
def beforeCleanup (tr : List Event) : List Event :=
  tr.filter (fun ev =>
    match ev with
    | .stderr (.cleaningUp _) => false
    | .stderr (.cleanupCompleted _ _) => false
    | .stderr (.cleanupError _) => false
    | .stderr .fallingBack => false
    | .completionCall _ => false
    | .stdout _ => false
    | _ => true)

/-! ## Lemmas on the path helpers -/

theorem extname_shape (p : String) :
    extname p = "" ∨ ∃ cs, extname p = String.mk ('.' :: cs) := by
  unfold extname
  simp only
  split
  · exact Or.inl rfl
  · split
    · exact Or.inl rfl
    · split
      · exact Or.inl rfl
      · exact Or.inr ⟨_, rfl⟩

theorem toLowerCase_extname_shape (p : String) :
    toLowerCase (extname p) = "" ∨ (toLowerCase (extname p)).data.head? = some '.' := by
  rcases extname_shape p with h | ⟨cs, h⟩
  · left; rw [h]; rfl
  · right; rw [h]; rfl

theorem toLowerCase_extname_not_inherited (p : String) :
    toLowerCase (extname p) ∉ objectPrototypeKeys := by
  intro hmem
  have hkeys : ∀ k ∈ objectPrototypeKeys, k ≠ "" ∧ k.data.head? ≠ some '.' := by decide
  obtain ⟨h1, h2⟩ := hkeys _ hmem
  rcases toLowerCase_extname_shape p with h | h
  · exact h1 h
  · exact h2 h

/-! ## Lemmas on the two stages -/

theorem orElse_eq_getD_empty (v : Option String) : orElse v "" = v.getD "" := by
  cases v with
  | none => rfl
  | some s =>
    by_cases h : s = ""
    · simp [orElse, h]
    · simp [orElse, h]

theorem transcribeAudio_not_found (env : Env) (p : String) (h : env.fs.existsSync p = false) :
    transcribeAudio env p =
      ([Event.stderr (.transcriptionError ("Audio file not found: " ++ p))],
        .error ⟨"Error", "Audio file not found: " ++ p⟩) := by
  simp [transcribeAudio, transcribeAudioBody, h]

theorem transcribeAudio_stat_error (env : Env) (p : String) (e : JSError)
    (h : env.fs.existsSync p = true) (hst : env.fs.statSync p = .error e) :
    transcribeAudio env p = ([Event.stderr (.transcriptionError e.message)], .error e) := by
  simp [transcribeAudio, transcribeAudioBody, h, hst]

theorem transcribeAudio_too_small (env : Env) (p : String) (size : Nat)
    (h : env.fs.existsSync p = true) (hst : env.fs.statSync p = .ok size) (hs : size < 1000) :
    transcribeAudio env p =
      ([Event.stderr (.processing p size),
        Event.stderr (.transcriptionError
          "Audio file is too small - likely silent or no audio recorded")],
        .error ⟨"Error", "Audio file is too small - likely silent or no audio recorded"⟩) := by
  simp [transcribeAudio, transcribeAudioBody, h, hst, hs]

theorem transcribeAudio_read_error (env : Env) (p : String) (size : Nat) (e : JSError)
    (h : env.fs.existsSync p = true) (hst : env.fs.statSync p = .ok size) (hs : 1000 ≤ size)
    (hrd : env.fs.readFileSync p = .error e) :
    transcribeAudio env p =
      ([Event.stderr (.processing p size), Event.stderr (.transcriptionError e.message)],
        .error e) := by
  have hs2 : ¬ size < 1000 := Nat.not_lt.mpr hs
  simp [transcribeAudio, transcribeAudioBody, h, hst, hs2, hrd]

theorem transcribeAudio_provider_error (env : Env) (p : String) (size : Nat)
    (data : List Nat) (e : JSError)
    (h : env.fs.existsSync p = true) (hst : env.fs.statSync p = .ok size) (hs : 1000 ≤ size)
    (hrd : env.fs.readFileSync p = .ok data)
    (he : env.mistral (transcriptionRequest data p) = .error e) :
    transcribeAudio env p =
      ([Event.stderr (.processing p size), Event.stderr .sending,
        Event.transcriptionCall (transcriptionRequest data p),
        Event.stderr (.transcriptionError e.message)], .error e) := by
  have hs2 : ¬ size < 1000 := Nat.not_lt.mpr hs
  simp [transcribeAudio, transcribeAudioBody, h, hst, hs2, hrd, he]

theorem transcribeAudio_ok (env : Env) (p : String) (size : Nat) (data : List Nat)
    (response : TranscriptionResponse)
    (h : env.fs.existsSync p = true) (hst : env.fs.statSync p = .ok size) (hs : 1000 ≤ size)
    (hrd : env.fs.readFileSync p = .ok data)
    (hr : env.mistral (transcriptionRequest data p) = .ok response) :
    transcribeAudio env p =
      ([Event.stderr (.processing p size), Event.stderr .sending,
        Event.transcriptionCall (transcriptionRequest data p),
        Event.stderr (.transcriptionCompleted (orElse response.text ""))],
        .ok (orElse response.text "")) := by
  have hs2 : ¬ size < 1000 := Nat.not_lt.mpr hs
  simp [transcribeAudio, transcribeAudioBody, h, hst, hs2, hrd, hr]

theorem cleanupText_provider_error (env : Env) (rawText : String) (flag : Option Bool)
    (e : JSError) (he : env.openai (cleanupRequest rawText (flag.getD false)) = .error e) :
    cleanupText env rawText flag =
      ([Event.stderr (.cleaningUp (cleanupRequest rawText (flag.getD false)).model),
        Event.completionCall (cleanupRequest rawText (flag.getD false)),
        Event.stderr (.cleanupError e.message), Event.stderr .fallingBack], .ok rawText) := by
  simp [cleanupText, cleanupTextBody, he]

theorem cleanupText_type_error (env : Env) (rawText : String) (flag : Option Bool)
    (r : ChatCompletion) (e : JSError)
    (hr : env.openai (cleanupRequest rawText (flag.getD false)) = .ok r)
    (he : firstContent r = .error e) :
    cleanupText env rawText flag =
      ([Event.stderr (.cleaningUp (cleanupRequest rawText (flag.getD false)).model),
        Event.completionCall (cleanupRequest rawText (flag.getD false)),
        Event.stderr (.cleanupError e.message), Event.stderr .fallingBack], .ok rawText) := by
  simp [cleanupText, cleanupTextBody, hr, he]

theorem cleanupText_content (env : Env) (rawText : String) (flag : Option Bool)
    (r : ChatCompletion) (content : Option String)
    (hr : env.openai (cleanupRequest rawText (flag.getD false)) = .ok r)
    (hc : firstContent r = .ok content) :
    cleanupText env rawText flag =
      ([Event.stderr (.cleaningUp (cleanupRequest rawText (flag.getD false)).model),
        Event.completionCall (cleanupRequest rawText (flag.getD false)),
        Event.stderr (.cleanupCompleted rawText (orElse content rawText))],
        .ok (orElse content rawText)) := by
  simp [cleanupText, cleanupTextBody, hr, hc]

/-- Whatever the generation provider does, `cleanupText` returns normally
with a trace that holds exactly one call of it. -/
theorem cleanupText_cases (env : Env) (rawText : String) (flag : Option Bool) :
    ∃ log s, cleanupText env rawText flag = (log, .ok s) ∧
      completionCalls log = [cleanupRequest rawText (flag.getD false)] ∧
      stdoutChunks log = [] ∧ transcriptionCalls log = [] ∧ beforeCleanup log = [] := by
  cases hr : env.openai (cleanupRequest rawText (flag.getD false)) with
  | error e =>
    exact ⟨_, _, cleanupText_provider_error env rawText flag e hr, rfl, rfl, rfl, rfl⟩
  | ok r =>
    cases hc : firstContent r with
    | error e =>
      exact ⟨_, _, cleanupText_type_error env rawText flag r e hr hc, rfl, rfl, rfl, rfl⟩
    | ok c => exact ⟨_, _, cleanupText_content env rawText flag r c hr hc, rfl, rfl, rfl, rfl⟩

/-- The ways `transcribeAudio` can go: it throws exactly when the path does
not exist, `fs.statSync` throws, the size is below 1000, `fs.readFileSync`
throws, or the provider throws; the provider is called exactly when all the
steps before the call went through; its trace never holds a generation call
or a primary-channel write. -/
theorem transcribeAudio_cases (env : Env) (p : String) :
    ∃ log r, transcribeAudio env p = (log, r) ∧
      completionCalls log = [] ∧ stdoutChunks log = [] ∧ beforeCleanup log = log ∧
      ((∃ e, r = .error e) ↔
        (env.fs.existsSync p = false ∨ (∃ e, env.fs.statSync p = .error e) ∨
          (∃ size, env.fs.statSync p = .ok size ∧ size < 1000) ∨
          (∃ e, env.fs.readFileSync p = .error e) ∨
          ∃ data e, env.fs.readFileSync p = .ok data ∧
            env.mistral (transcriptionRequest data p) = .error e)) ∧
      ((env.fs.existsSync p = false ∨ (∃ e, env.fs.statSync p = .error e) ∨
          (∃ size, env.fs.statSync p = .ok size ∧ size < 1000) ∨
          (∃ e, env.fs.readFileSync p = .error e)) → transcriptionCalls log = []) ∧
      (∀ size data, env.fs.existsSync p = true → env.fs.statSync p = .ok size →
        1000 ≤ size → env.fs.readFileSync p = .ok data →
        transcriptionCalls log = [transcriptionRequest data p]) := by
  cases hex : env.fs.existsSync p with
  | false =>
    refine ⟨_, _, transcribeAudio_not_found env p hex, rfl, rfl, rfl,
      ⟨fun _ => Or.inl rfl, fun _ => ⟨_, rfl⟩⟩, fun _ => rfl, ?_⟩
    intro size data h
    cases h
  | true =>
    cases hst : env.fs.statSync p with
    | error e =>
      refine ⟨_, _, transcribeAudio_stat_error env p e hex hst, rfl, rfl, rfl,
        ⟨fun _ => Or.inr (Or.inl ⟨e, rfl⟩), fun _ => ⟨_, rfl⟩⟩, fun _ => rfl, ?_⟩
      intro size data _ h
      cases h
    | ok size =>
      by_cases hs : size < 1000
      · refine ⟨_, _, transcribeAudio_too_small env p size hex hst hs, rfl, rfl, rfl,
          ⟨fun _ => Or.inr (Or.inr (Or.inl ⟨size, rfl, hs⟩)), fun _ => ⟨_, rfl⟩⟩,
          fun _ => rfl, ?_⟩
        intro size2 data _ h hge
        cases h
        exact absurd hs (Nat.not_lt.mpr hge)
      · have hs2 : 1000 ≤ size := Nat.le_of_not_lt hs
        cases hrd : env.fs.readFileSync p with
        | error e =>
          refine ⟨_, _, transcribeAudio_read_error env p size e hex hst hs2 hrd, rfl, rfl, rfl,
            ⟨fun _ => Or.inr (Or.inr (Or.inr (Or.inl ⟨e, rfl⟩))), fun _ => ⟨_, rfl⟩⟩,
            fun _ => rfl, ?_⟩
          intro size2 data _ _ _ h
          cases h
        | ok data =>
          cases hr : env.mistral (transcriptionRequest data p) with
          | error e =>
            refine ⟨_, _, transcribeAudio_provider_error env p size data e hex hst hs2 hrd hr,
              rfl, rfl, rfl,
              ⟨fun _ => Or.inr (Or.inr (Or.inr (Or.inr ⟨data, e, rfl, hr⟩))),
                fun _ => ⟨_, rfl⟩⟩, ?_, ?_⟩
            · rintro (h | ⟨e2, h⟩ | ⟨size2, h, hlt⟩ | ⟨e2, h⟩)
              · cases h
              · cases h
              · cases h
                exact absurd hlt hs
              · cases h
            · intro size2 data2 _ _ _ h
              cases h
              rfl
          | ok response =>
            refine ⟨_, _, transcribeAudio_ok env p size data response hex hst hs2 hrd hr,
              rfl, rfl, rfl, ⟨?_, ?_⟩, ?_, ?_⟩
            · rintro ⟨e, he⟩
              cases he
            · rintro (h | ⟨e2, h⟩ | ⟨size2, h, hlt⟩ | ⟨e2, h⟩ | ⟨data2, e2, h, herr⟩)
              · cases h
              · cases h
              · cases h
                exact absurd hlt hs
              · cases h
              · cases h
                rw [hr] at herr
                cases herr
            · rintro (h | ⟨e2, h⟩ | ⟨size2, h, hlt⟩ | ⟨e2, h⟩)
              · cases h
              · cases h
              · cases h
                exact absurd hlt hs
              · cases h
            · intro size2 data2 _ _ _ h
              cases h
              rfl

/-! ## The claims on the single stages -/

/-- C1: `cleanupText` never propagates an error.  For every raw text, every
mode argument and every behaviour of the generation provider (a thrown error,
or a response of any shape) it returns a string; and when the provider throws,
the returned string is the raw text. -/
theorem cleanupText_never_throws (env : Env) (rawText : String) (flag : Option Bool) :
    (∃ s, (cleanupText env rawText flag).2 = .ok s) ∧
    (∀ e, env.openai (cleanupRequest rawText (flag.getD false)) = .error e →
      (cleanupText env rawText flag).2 = .ok rawText) := by
  constructor
  · obtain ⟨log, s, h, _⟩ := cleanupText_cases env rawText flag
    exact ⟨s, by rw [h]⟩
  · intro e he
    rw [cleanupText_provider_error env rawText flag e he]

/-- Witness of C1: the generation provider of `degradedEnv` throws. -/
theorem cleanupText_never_throws_witness :
    (cleanupText degradedEnv "um so like i think uh this works" none).2 =
      .ok "um so like i think uh this works" :=
  (cleanupText_never_throws degradedEnv "um so like i think uh this works" none).2
    { name := "Error", message := "503 Service Unavailable" } rfl

/-- C7: `cleanupText` issues exactly one generation request, with the two
messages `[system, user]`; in filler-removal mode it is `gpt-5-nano`, the
detailed instruction, the prefixed raw text and temperature 0.3; in GPT-5 mode
it is `gpt-5-mini`, the terse instruction, the raw text itself and
temperature 1; an omitted mode argument means filler-removal. -/
theorem cleanupText_request (env : Env) (rawText : String) :
    (∀ flag : Bool, completionCalls (cleanupText env rawText (some flag)).1 =
      [cleanupRequest rawText flag]) ∧
    cleanupRequest rawText false =
      { model := "gpt-5-nano",
        messages :=
          [ { role := "system",
              content := "You are a text cleanup assistant. Remove filler words (um, uh, like, you know, etc.), fix grammar, improve readability, and format the text nicely while preserving the original meaning and tone. Keep the text concise but natural. Do not add content that wasn't in the original text. Respond with only the cleaned text." },
            { role := "user",
              content := "Please clean up and format this transcribed text:\n\n" ++ rawText } ],
        temperature := 0.3 } ∧
    cleanupRequest rawText true =
      { model := "gpt-5-mini",
        messages :=
          [ { role := "system",
              content := "You are a helpful assistant who gives brief, information dense answers." },
            { role := "user", content := rawText } ],
        temperature := 1 } ∧
    cleanupText env rawText none = cleanupText env rawText (some false) := by
  refine ⟨?_, rfl, rfl, rfl⟩
  intro flag
  obtain ⟨log, s, h, hc, _⟩ := cleanupText_cases env rawText (some flag)
  rw [h]
  exact hc

/-- C8: for a file that passes validation (it exists, its size is at least
1000 and it is read) and a resolved response of the transcription provider, `transcribeAudio` returns the response's `text` when
it is present and the empty string when it is absent. -/
theorem transcribeAudio_result (env : Env) (p : String) (size : Nat) (data : List Nat)
    (response : TranscriptionResponse)
    (hex : env.fs.existsSync p = true) (hst : env.fs.statSync p = .ok size) (hsz : 1000 ≤ size)
    (hrd : env.fs.readFileSync p = .ok data)
    (hr : env.mistral (transcriptionRequest data p) = .ok response) :
    (transcribeAudio env p).2 = .ok (response.text.getD "") ∧
    (∀ t, response.text = some t → (transcribeAudio env p).2 = .ok t) ∧
    (response.text = none → (transcribeAudio env p).2 = .ok "") := by
  have h := transcribeAudio_ok env p size data response hex hst hsz hrd hr
  rw [orElse_eq_getD_empty] at h
  rw [h]
  refine ⟨rfl, ?_, ?_⟩
  · intro t ht
    simp [ht]
  · intro ht
    simp [ht]

/-- Witness of C8 on `rec.wav` in `degradedEnv`. -/
theorem transcribeAudio_result_witness :
    (transcribeAudio degradedEnv "rec.wav").2 = .ok "um so like i think uh this works" :=
  (transcribeAudio_result degradedEnv "rec.wav" 5000 (List.replicate 5000 0)
    { text := some "um so like i think uh this works" } rfl rfl (by decide) rfl rfl).1

/-- C9: `getAudioMimeType` is total and depends on the path only through its
lower-cased extension: the six table entries for `.wav`, `.mp3`, `.m4a`,
`.flac`, `.ogg`, `.webm`, and `audio/wav` for every other or missing one (no
member inherited from `Object.prototype` is ever returned). -/
theorem getAudioMimeType_table (filePath : String) :
    (toLowerCase (extname filePath) = ".wav" → getAudioMimeType filePath = .str "audio/wav") ∧
    (toLowerCase (extname filePath) = ".mp3" → getAudioMimeType filePath = .str "audio/mpeg") ∧
    (toLowerCase (extname filePath) = ".m4a" → getAudioMimeType filePath = .str "audio/mp4") ∧
    (toLowerCase (extname filePath) = ".flac" → getAudioMimeType filePath = .str "audio/flac") ∧
    (toLowerCase (extname filePath) = ".ogg" → getAudioMimeType filePath = .str "audio/ogg") ∧
    (toLowerCase (extname filePath) = ".webm" → getAudioMimeType filePath = .str "audio/webm") ∧
    (toLowerCase (extname filePath) ∉ [".wav", ".mp3", ".m4a", ".flac", ".ogg", ".webm"] →
      getAudioMimeType filePath = .str "audio/wav") ∧
    (∀ other, toLowerCase (extname other) = toLowerCase (extname filePath) →
      getAudioMimeType other = getAudioMimeType filePath) := by
  have hproto := toLowerCase_extname_not_inherited filePath
  refine ⟨?_, ?_, ?_, ?_, ?_, ?_, ?_, ?_⟩
  rotate_right
  · intro other h
    simp only [getAudioMimeType, h]
  · intro h
    simp [getAudioMimeType, mimeTypes, h]
  · intro h
    simp [getAudioMimeType, mimeTypes, h]
  · intro h
    simp [getAudioMimeType, mimeTypes, h]
  · intro h
    simp [getAudioMimeType, mimeTypes, h]
  · intro h
    simp [getAudioMimeType, mimeTypes, h]
  · intro h
    simp [getAudioMimeType, mimeTypes, h]
  · intro h
    simp only [List.mem_cons, List.mem_singleton, List.not_mem_nil, or_false, not_or] at h
    obtain ⟨h1, h2, h3, h4, h5, h6⟩ := h
    simp [getAudioMimeType, mimeTypes, h1, h2, h3, h4, h5, h6, hproto]

/-- Witness of C9: an upper-case `.MP3` extension. -/
theorem getAudioMimeType_table_witness :
    getAudioMimeType "/tmp/Rec.MP3" = .str "audio/mpeg" :=
  (getAudioMimeType_table "/tmp/Rec.MP3").2.1 (by decide)

/-! ## The whole invocation -/

theorem program_selected (env : Env) (p : String)
    (hm : falsy env.MISTRAL_API_KEY = false) (ho : falsy env.OPENAI_API_KEY = false)
    (hp : audioFilePath env = some p) (hne : p ≠ "") :
    program env =
      match transcribeAudio env p with
      | (log1, .error error) =>
        { trace := log1 ++ [Event.stderr (.failed error.message)], exitCode := 1 }
      | (log1, .ok transcription) =>
        match cleanupText env transcription (some (useGPT5 env)) with
        | (log2, .error error) =>
          { trace := log1 ++ log2 ++ [Event.stderr (.failed error.message)], exitCode := 1 }
        | (log2, .ok cleanedText) =>
          { trace := log1 ++ log2 ++ [consoleLog cleanedText], exitCode := 0 } := by
  have hf : falsy (some p) = false := by simp [falsy, hne]
  simp [program, main, hm, ho, hp, hf]

theorem program_transcribe_error (env : Env) (p : String) (log1 : List Event) (e : JSError)
    (hm : falsy env.MISTRAL_API_KEY = false) (ho : falsy env.OPENAI_API_KEY = false)
    (hp : audioFilePath env = some p) (hne : p ≠ "")
    (ht : transcribeAudio env p = (log1, .error e)) :
    program env = { trace := log1 ++ [Event.stderr (.failed e.message)], exitCode := 1 } := by
  rw [program_selected env p hm ho hp hne, ht]

theorem program_transcribe_ok (env : Env) (p : String) (log1 log2 : List Event)
    (t c : String)
    (hm : falsy env.MISTRAL_API_KEY = false) (ho : falsy env.OPENAI_API_KEY = false)
    (hp : audioFilePath env = some p) (hne : p ≠ "")
    (ht : transcribeAudio env p = (log1, .ok t))
    (hc : cleanupText env t (some (useGPT5 env)) = (log2, .ok c)) :
    program env = { trace := log1 ++ log2 ++ [consoleLog c], exitCode := 0 } := by
  rw [program_selected env p hm ho hp hne, ht]
  simp only
  rw [hc]

theorem program_usage (env : Env)
    (hm : falsy env.MISTRAL_API_KEY = false) (ho : falsy env.OPENAI_API_KEY = false)
    (hp : falsy (audioFilePath env) = true) :
    program env = { trace := [Event.stderr .usage], exitCode := 1 } := by
  simp [program, main, hm, ho, hp]

/-- C2: degradation round trip.  When validation passes, the transcription
provider returns transcript `t` and the generation provider throws, the
primary channel receives exactly `t` and one newline, in one write, and the
exit code is 0. -/
theorem degradation_round_trip (env : Env) (p t : String) (size : Nat) (data : List Nat)
    (e : JSError)
    (hm : falsy env.MISTRAL_API_KEY = false) (ho : falsy env.OPENAI_API_KEY = false)
    (hp : audioFilePath env = some p) (hne : p ≠ "")
    (hex : env.fs.existsSync p = true) (hst : env.fs.statSync p = .ok size) (hsz : 1000 ≤ size)
    (hrd : env.fs.readFileSync p = .ok data)
    (ht : env.mistral (transcriptionRequest data p) = .ok { text := some t })
    (he : env.openai (cleanupRequest t (useGPT5 env)) = .error e) :
    stdoutChunks (program env).trace = [t ++ "\n"] ∧
    (program env).stdout = t ++ "\n" ∧
    (program env).exitCode = 0 := by
  have h1 := transcribeAudio_ok env p size data _ hex hst hsz hrd ht
  have ht' : orElse (some t) "" = t := by
    by_cases h : t = ""
    · simp [orElse, h]
    · simp [orElse, h]
  simp only [ht'] at h1
  have h2 := cleanupText_provider_error env t (some (useGPT5 env)) e he
  rw [program_transcribe_ok env p _ _ t t hm ho hp hne h1 h2]
  simp [stdoutChunks, Run.stdout, consoleLog, String.join]

/-- Witness of C2: the example of the specification. -/
theorem degradation_round_trip_witness :
    (program degradedEnv).stdout = "um so like i think uh this works\n" :=
  (degradation_round_trip degradedEnv "rec.wav" "um so like i think uh this works"
    5000 (List.replicate 5000 0) { name := "Error", message := "503 Service Unavailable" }
    rfl rfl rfl (by decide) rfl rfl (by decide) rfl rfl rfl).2.1

/-- C3, as stated, fails for the empty cleaned text: the generation provider
answers with a first choice whose content is present and is the empty string,
yet the primary channel receives the raw transcript and a newline, not the
empty text and a newline. -/
theorem empty_cleanup_emits_transcript :
    emptyCleanupEnv.openai (cleanupRequest "um so like i think uh this works" false) =
      .ok { choices := some [{ message := some { content := some "" } }] } ∧
    (program emptyCleanupEnv).stdout = "um so like i think uh this works\n" ∧
    (program emptyCleanupEnv).stdout ≠ "" ++ "\n" := by
  refine ⟨rfl, ?_, ?_⟩ <;> decide

/-- C3, amended: when transcription gives transcript `t` and the generation
provider answers, the primary channel receives, in one write, the first
choice's content `c` and a newline whenever `c` is a non-empty string; when
that content is absent or is the empty string (or `choices` itself is
absent) it receives `t` and a newline.  The exit code is 0 either way. -/
theorem cleaned_text_emitted (env : Env) (p t : String) (size : Nat) (data : List Nat)
    (r : ChatCompletion)
    (hm : falsy env.MISTRAL_API_KEY = false) (ho : falsy env.OPENAI_API_KEY = false)
    (hp : audioFilePath env = some p) (hne : p ≠ "")
    (hex : env.fs.existsSync p = true) (hst : env.fs.statSync p = .ok size) (hsz : 1000 ≤ size)
    (hrd : env.fs.readFileSync p = .ok data)
    (ht : env.mistral (transcriptionRequest data p) = .ok { text := some t })
    (hr : env.openai (cleanupRequest t (useGPT5 env)) = .ok r) :
    (∀ c, firstContent r = .ok (some c) → c ≠ "" →
      stdoutChunks (program env).trace = [c ++ "\n"]) ∧
    ((firstContent r = .ok none ∨ firstContent r = .ok (some "") ∨
        ∃ e, firstContent r = .error e) →
      stdoutChunks (program env).trace = [t ++ "\n"]) ∧
    (program env).exitCode = 0 := by
  have h1 := transcribeAudio_ok env p size data _ hex hst hsz hrd ht
  have ht' : orElse (some t) "" = t := by
    by_cases h : t = ""
    · simp [orElse, h]
    · simp [orElse, h]
  simp only [ht'] at h1
  have key : ∀ log2 c, cleanupText env t (some (useGPT5 env)) = (log2, .ok c) →
      stdoutChunks log2 = [] →
      stdoutChunks (program env).trace = [c ++ "\n"] ∧ (program env).exitCode = 0 := by
    intro log2 c h2 hlog
    rw [program_transcribe_ok env p _ _ t c hm ho hp hne h1 h2]
    have : stdoutChunks log2 = [] := hlog
    simp only [stdoutChunks] at this
    simp [stdoutChunks, consoleLog, this]
  refine ⟨?_, ?_, ?_⟩
  · intro c hc hcne
    have h2 := cleanupText_content env t (some (useGPT5 env)) r (some c) hr hc
    have : orElse (some c) t = c := by simp [orElse, hcne]
    rw [this] at h2
    exact (key _ _ h2 rfl).1
  · rintro (hc | hc | ⟨e, hc⟩)
    · have h2 := cleanupText_content env t (some (useGPT5 env)) r none hr hc
      exact (key _ _ h2 rfl).1
    · have h2 := cleanupText_content env t (some (useGPT5 env)) r (some "") hr hc
      exact (key _ _ h2 rfl).1
    · have h2 := cleanupText_type_error env t (some (useGPT5 env)) r e hr hc
      exact (key _ _ h2 rfl).1
  · obtain ⟨log2, c, h2, _, hs, _⟩ := cleanupText_cases env t (some (useGPT5 env))
    exact (key _ _ h2 hs).2

/-- Witness of C3 (amended): the example of the specification. -/
theorem cleaned_text_emitted_witness :
    stdoutChunks (program successEnv).trace = ["I think this works." ++ "\n"] :=
  (cleaned_text_emitted successEnv "rec.wav" "um so like i think uh this works"
    5000 (List.replicate 5000 0)
    { choices := some [{ message := some { content := some "I think this works." } }] }
    rfl rfl rfl (by decide) rfl rfl (by decide) rfl rfl rfl).1
    "I think this works." rfl (by decide)

/-- C4: transcription failure is fatal and short-circuits cleanup.  When
validation passes and the transcription provider throws `e`, the generation
provider is not called, nothing is written to the primary channel, the exit
code is 1, and the error `main` catches is `e` itself, whose message it logs. -/
theorem transcription_failure_fatal (env : Env) (p : String) (size : Nat) (data : List Nat)
    (e : JSError)
    (hm : falsy env.MISTRAL_API_KEY = false) (ho : falsy env.OPENAI_API_KEY = false)
    (hp : audioFilePath env = some p) (hne : p ≠ "")
    (hex : env.fs.existsSync p = true) (hst : env.fs.statSync p = .ok size) (hsz : 1000 ≤ size)
    (hrd : env.fs.readFileSync p = .ok data)
    (he : env.mistral (transcriptionRequest data p) = .error e) :
    completionCalls (program env).trace = [] ∧
    stdoutChunks (program env).trace = [] ∧
    (program env).stdout = "" ∧
    (program env).exitCode = 1 ∧
    (transcribeAudio env p).2 = .error e ∧
    diagnostics (program env).trace =
      [.processing p size, .sending, .transcriptionError e.message,
        .failed e.message] := by
  have h1 := transcribeAudio_provider_error env p size data e hex hst hsz hrd he
  rw [program_transcribe_error env p _ e hm ho hp hne h1, h1]
  refine ⟨rfl, rfl, rfl, rfl, rfl, rfl⟩

/-- Witness of C4: the transcription provider of `transcriptionDownEnv` throws. -/
theorem transcription_failure_fatal_witness :
    (program transcriptionDownEnv).exitCode = 1 :=
  (transcription_failure_fatal transcriptionDownEnv "rec.wav" 5000 (List.replicate 5000 0)
    { name := "Error", message := "401 Unauthorized" }
    rfl rfl rfl (by decide) rfl rfl (by decide) rfl rfl).2.2.2.1

/-- C5, as stated, fails at a directory: `recordings` exists and its size,
4096, is not below 1000, yet `transcribeAudio` fails before any call of the
transcription provider, because `fs.readFileSync` throws inside the `try`. -/
theorem directory_fails_before_provider_call :
    ¬ (((∃ e, (transcribeAudio directoryEnv "recordings").2 = .error e) ∧
          transcriptionCalls (transcribeAudio directoryEnv "recordings").1 = []) ↔
        (directoryEnv.fs.existsSync "recordings" = false ∨
          (directoryEnv.fs.existsSync "recordings" = true ∧
            ∃ size, directoryEnv.fs.statSync "recordings" = .ok size ∧ size < 1000))) := by
  intro h
  have hl : (∃ e, (transcribeAudio directoryEnv "recordings").2 = .error e) ∧
      transcriptionCalls (transcribeAudio directoryEnv "recordings").1 = [] :=
    ⟨⟨_, rfl⟩, rfl⟩
  rcases h.mp hl with h1 | ⟨_, size, h1, h2⟩
  · exact absurd h1 (by decide)
  · have hsize : size = 4096 := by
      have h3 : (Except.ok 4096 : Except JSError Nat) = Except.ok size := h1
      cases h3
      rfl
    subst hsize
    exact absurd h2 (by decide)

/-- C5, amended: `transcribeAudio` fails without having called the
transcription provider if and only if the path does not exist (not-found error
naming the path), or the file is smaller than 1000 bytes (too-small error), or
`fs.statSync` or `fs.readFileSync` throws (that error is thrown on); a file of
1000 bytes or more that is read passes validation and the provider is called.
On each of these failures the whole run writes nothing to the primary channel
and exits with code 1. -/
theorem validation_threshold (env : Env) (p : String) :
    (((∃ e, (transcribeAudio env p).2 = .error e) ∧
        transcriptionCalls (transcribeAudio env p).1 = []) ↔
      (env.fs.existsSync p = false ∨ (∃ e, env.fs.statSync p = .error e) ∨
        (∃ size, env.fs.statSync p = .ok size ∧ size < 1000) ∨
        (∃ e, env.fs.readFileSync p = .error e))) ∧
    (env.fs.existsSync p = false →
      (transcribeAudio env p).2 = .error ⟨"Error", "Audio file not found: " ++ p⟩) ∧
    (∀ size, env.fs.existsSync p = true → env.fs.statSync p = .ok size → size < 1000 →
      (transcribeAudio env p).2 =
        .error ⟨"Error", "Audio file is too small - likely silent or no audio recorded"⟩) ∧
    (∀ e, env.fs.existsSync p = true → env.fs.statSync p = .error e →
      (transcribeAudio env p).2 = .error e) ∧
    (∀ size e, env.fs.existsSync p = true → env.fs.statSync p = .ok size → 1000 ≤ size →
      env.fs.readFileSync p = .error e → (transcribeAudio env p).2 = .error e) ∧
    (∀ size data, env.fs.existsSync p = true → env.fs.statSync p = .ok size → 1000 ≤ size →
      env.fs.readFileSync p = .ok data →
      transcriptionCalls (transcribeAudio env p).1 = [transcriptionRequest data p]) ∧
    (audioFilePath env = some p →
      (env.fs.existsSync p = false ∨ (∃ e, env.fs.statSync p = .error e) ∨
        (∃ size, env.fs.statSync p = .ok size ∧ size < 1000) ∨
        (∃ e, env.fs.readFileSync p = .error e)) →
      stdoutChunks (program env).trace = [] ∧ (program env).exitCode = 1) := by
  obtain ⟨log, r, hrun, _, hs1, _, hiff, hno, hcall⟩ := transcribeAudio_cases env p
  have hfail : (env.fs.existsSync p = false ∨ (∃ e, env.fs.statSync p = .error e) ∨
        (∃ size, env.fs.statSync p = .ok size ∧ size < 1000) ∨
        (∃ e, env.fs.readFileSync p = .error e)) → ∃ e, r = .error e := by
    intro hd
    apply hiff.mpr
    rcases hd with h | h | h | h
    · exact Or.inl h
    · exact Or.inr (Or.inl h)
    · exact Or.inr (Or.inr (Or.inl h))
    · exact Or.inr (Or.inr (Or.inr (Or.inl h)))
  refine ⟨⟨?_, ?_⟩, ?_, ?_, ?_, ?_, ?_, ?_⟩
  · rw [hrun]
    rintro ⟨_, hnone⟩
    cases hex : env.fs.existsSync p with
    | false => exact Or.inl rfl
    | true =>
      cases hst : env.fs.statSync p with
      | error e => exact Or.inr (Or.inl ⟨e, rfl⟩)
      | ok size =>
        by_cases hlt : size < 1000
        · exact Or.inr (Or.inr (Or.inl ⟨size, rfl, hlt⟩))
        · cases hrd : env.fs.readFileSync p with
          | error e => exact Or.inr (Or.inr (Or.inr ⟨e, rfl⟩))
          | ok data =>
            have hc := hcall size data hex hst (Nat.le_of_not_lt hlt) hrd
            have hnone2 : transcriptionCalls log = [] := hnone
            rw [hc] at hnone2
            cases hnone2
  · intro hd
    rw [hrun]
    exact ⟨hfail hd, hno hd⟩
  · intro hex
    rw [transcribeAudio_not_found env p hex]
  · intro size hex hst hlt
    rw [transcribeAudio_too_small env p size hex hst hlt]
  · intro e hex hst
    rw [transcribeAudio_stat_error env p e hex hst]
  · intro size e hex hst hge hrd
    rw [transcribeAudio_read_error env p size e hex hst hge hrd]
  · intro size data hex hst hge hrd
    rw [hrun]
    exact hcall size data hex hst hge hrd
  · intro hp hd
    cases hm : falsy env.MISTRAL_API_KEY with
    | true => simp [program, hm, stdoutChunks]
    | false =>
      cases ho : falsy env.OPENAI_API_KEY with
      | true => simp [program, hm, ho, stdoutChunks]
      | false =>
        by_cases hne : p = ""
        · have hf : falsy (audioFilePath env) = true := by simp [hp, falsy, hne]
          rw [program_usage env hm ho hf]
          exact ⟨rfl, rfl⟩
        · obtain ⟨e, rfl⟩ := hfail hd
          rw [program_transcribe_error env p log e hm ho hp hne hrun]
          have : stdoutChunks log = [] := hs1
          simp only [stdoutChunks] at this
          simp [stdoutChunks, this]

/-- Witness of C5 (amended): `missing.wav` does not exist. -/
theorem validation_threshold_witness :
    stdoutChunks (program missingFileEnv).trace = [] ∧ (program missingFileEnv).exitCode = 1 :=
  (validation_threshold missingFileEnv "missing.wav").2.2.2.2.2.2 rfl (Or.inl rfl)

theorem audioFilePath_eq_none (env : Env) :
    audioFilePath env = none ↔ ∀ a ∈ args env, startsWith a "--" = true := by
  simp [audioFilePath, List.find?_eq_none]

/-- C6, as stated, fails at `node transcribe.js recordings`: both credentials
are set, an argument that does not start with `--` is given, the path exists
and its size is not below 1000, and the transcription provider fails on no
request; yet `fs.readFileSync` throws on the directory and the run ends with
exit code 1 and an empty primary channel. -/
theorem directory_argument_exits_one :
    ¬ (((program directoryEnv).exitCode = 1 ∧ stdoutChunks (program directoryEnv).trace = []) ↔
        (falsy directoryEnv.MISTRAL_API_KEY = true ∨ falsy directoryEnv.OPENAI_API_KEY = true ∨
          (∀ a ∈ args directoryEnv, startsWith a "--" = true) ∨
          (∃ p, audioFilePath directoryEnv = some p ∧
            (directoryEnv.fs.existsSync p = false ∨
              ∃ size, directoryEnv.fs.statSync p = .ok size ∧ size < 1000)) ∨
          ∃ req e, directoryEnv.mistral req = .error e)) := by
  intro h
  have hl : (program directoryEnv).exitCode = 1 ∧
      stdoutChunks (program directoryEnv).trace = [] := ⟨rfl, rfl⟩
  rcases h.mp hl with h1 | h1 | h1 | ⟨p, hp, h1⟩ | ⟨req, e, h1⟩
  · exact absurd h1 (by decide)
  · exact absurd h1 (by decide)
  · exact absurd (h1 "recordings" (by decide)) (by decide)
  · have hsel : audioFilePath directoryEnv = some "recordings" := by decide
    rw [hsel] at hp
    cases hp
    rcases h1 with h1 | ⟨size, h1, h2⟩
    · exact absurd h1 (by decide)
    · have hsize : size = 4096 := by
        have h3 : (Except.ok 4096 : Except JSError Nat) = Except.ok size := h1
        cases h3
        rfl
      subst hsize
      exact absurd h2 (by decide)
  · have h3 : (Except.ok { text := some "um so like i think uh this works" } :
        Except JSError TranscriptionResponse) = Except.error e := h1
    cases h3

/-- C6, amended: the run ends with exit code 1 and an empty primary channel
exactly when a provider credential is missing, or no argument that does not
start with `--` is given, or validation fails, or `fs.statSync` or
`fs.readFileSync` throws on the selected path, or the transcription provider
fails; in every other case, whatever the generation provider does, it ends
with exit code 0 after exactly one write of a newline-terminated text.  No
other outcome exists.  The hypothesis is Node's `fs.existsSync("")`, which is
`false`: an empty selected path takes the usage exit. -/
theorem exit_code_characterisation (env : Env) (hempty : env.fs.existsSync "" = false) :
    (((program env).exitCode = 1 ∧ stdoutChunks (program env).trace = []) ↔
      (falsy env.MISTRAL_API_KEY = true ∨ falsy env.OPENAI_API_KEY = true ∨
        (∀ a ∈ args env, startsWith a "--" = true) ∨
        ∃ p, audioFilePath env = some p ∧
          (env.fs.existsSync p = false ∨ (∃ e, env.fs.statSync p = .error e) ∨
            (∃ size, env.fs.statSync p = .ok size ∧ size < 1000) ∨
            (∃ e, env.fs.readFileSync p = .error e) ∨
            ∃ data e, env.fs.readFileSync p = .ok data ∧
              env.mistral (transcriptionRequest data p) = .error e))) ∧
    (((program env).exitCode = 1 ∧ stdoutChunks (program env).trace = []) ∨
      ((program env).exitCode = 0 ∧
        ∃ text, stdoutChunks (program env).trace = [text ++ "\n"])) := by
  cases hm : falsy env.MISTRAL_API_KEY with
  | true =>
    have hrun : (program env).exitCode = 1 ∧ stdoutChunks (program env).trace = [] := by
      simp [program, hm, stdoutChunks]
    exact ⟨⟨fun _ => Or.inl rfl, fun _ => hrun⟩, Or.inl hrun⟩
  | false =>
    cases ho : falsy env.OPENAI_API_KEY with
    | true =>
      have hrun : (program env).exitCode = 1 ∧ stdoutChunks (program env).trace = [] := by
        simp [program, hm, ho, stdoutChunks]
      exact ⟨⟨fun _ => Or.inr (Or.inl rfl), fun _ => hrun⟩, Or.inl hrun⟩
    | false =>
      cases hsel : audioFilePath env with
      | none =>
        have hf : falsy (audioFilePath env) = true := by rw [hsel]; rfl
        have hrun : (program env).exitCode = 1 ∧ stdoutChunks (program env).trace = [] := by
          rw [program_usage env hm ho hf]
          exact ⟨rfl, rfl⟩
        exact ⟨⟨fun _ => Or.inr (Or.inr (Or.inl ((audioFilePath_eq_none env).mp hsel))),
          fun _ => hrun⟩, Or.inl hrun⟩
      | some p =>
        by_cases hne : p = ""
        · have hf : falsy (audioFilePath env) = true := by rw [hsel, hne]; rfl
          have hrun : (program env).exitCode = 1 ∧ stdoutChunks (program env).trace = [] := by
            rw [program_usage env hm ho hf]
            exact ⟨rfl, rfl⟩
          refine ⟨⟨fun _ => ?_, fun _ => hrun⟩, Or.inl hrun⟩
          refine Or.inr (Or.inr (Or.inr ⟨p, rfl, Or.inl ?_⟩))
          rw [hne]
          exact hempty
        · obtain ⟨log1, r, h1, _, hs1, _, hiff, _, _⟩ := transcribeAudio_cases env p
          have hs1' : List.filterMap
              (fun ev => match ev with | Event.stdout c => some c | _ => none) log1 = [] := hs1
          cases r with
          | error e =>
            have hrun : (program env).exitCode = 1 ∧ stdoutChunks (program env).trace = [] := by
              rw [program_transcribe_error env p log1 e hm ho hsel hne h1]
              simp [stdoutChunks, hs1']
            refine ⟨⟨fun _ => ?_, fun _ => hrun⟩, Or.inl hrun⟩
            exact Or.inr (Or.inr (Or.inr ⟨p, rfl, hiff.mp ⟨e, rfl⟩⟩))
          | ok t =>
            obtain ⟨log2, c, h2, _, hs2, _, _⟩ := cleanupText_cases env t (some (useGPT5 env))
            have hs2' : List.filterMap
                (fun ev => match ev with | Event.stdout c => some c | _ => none) log2 = [] := hs2
            have hrun : (program env).exitCode = 0 ∧
                stdoutChunks (program env).trace = [c ++ "\n"] := by
              rw [program_transcribe_ok env p log1 log2 t c hm ho hsel hne h1 h2]
              simp [stdoutChunks, consoleLog, hs1', hs2']
            refine ⟨⟨fun hl => ?_, fun hr => ?_⟩, Or.inr ⟨hrun.1, c, hrun.2⟩⟩
            · rw [hrun.1] at hl
              exact absurd hl.1 (by decide)
            · rcases hr with hr | hr | hr | ⟨q, hq, hr⟩
              · cases hr
              · cases hr
              · have hnone := (audioFilePath_eq_none env).mpr hr
                rw [hsel] at hnone
                cases hnone
              · cases hq
                obtain ⟨e, he⟩ := hiff.mpr hr
                cases he

/-- Witness of C6 (amended): the directory argument, where reading fails. -/
theorem exit_code_characterisation_witness :
    (program directoryEnv).exitCode = 1 ∧ stdoutChunks (program directoryEnv).trace = [] :=
  (exit_code_characterisation directoryEnv rfl).1.mpr
    (Or.inr (Or.inr (Or.inr ⟨"recordings", rfl,
      Or.inr (Or.inr (Or.inr (Or.inl ⟨_, rfl⟩)))⟩)))

/-! ## The mode flag -/

theorem find_skips_flag (l : List String) :
    (l.filter (fun a => a != "--gpt5")).find? (fun arg => !startsWith arg "--") =
      l.find? (fun arg => !startsWith arg "--") := by
  induction l with
  | nil => rfl
  | cons a l ih =>
    by_cases ha : a = "--gpt5"
    · subst ha
      have hflag : startsWith "--gpt5" "--" = true := by decide
      simp [List.find?, hflag, ih]
    · by_cases hs : startsWith a "--" = true
      · simp [List.filter_cons, ha, List.find?_cons, hs, ih]
      · simp [List.filter_cons, ha, List.find?_cons, hs]

theorem audioFilePath_withArgv (env : Env) (argv2 : List String)
    (h : (args env).filter (fun a => a != "--gpt5") =
      (args (withArgv env argv2)).filter (fun a => a != "--gpt5")) :
    audioFilePath (withArgv env argv2) = audioFilePath env := by
  unfold audioFilePath
  rw [← find_skips_flag (args env), ← find_skips_flag (args (withArgv env argv2)), h]

/-- Two runs that differ only in `--gpt5` either fail identically, without a
generation call, or both succeed on the same transcript. -/
theorem paired_runs (env : Env) (argv2 : List String)
    (h : (args env).filter (fun a => a != "--gpt5") =
      (args (withArgv env argv2)).filter (fun a => a != "--gpt5")) :
    (∃ tr, program env = { trace := tr, exitCode := 1 } ∧
        program (withArgv env argv2) = { trace := tr, exitCode := 1 } ∧
        completionCalls tr = []) ∨
    (∃ log1 log2 log3 t c d,
        program env = { trace := log1 ++ log2 ++ [consoleLog c], exitCode := 0 } ∧
        program (withArgv env argv2) =
          { trace := log1 ++ log3 ++ [consoleLog d], exitCode := 0 } ∧
        completionCalls log1 = [] ∧
        completionCalls log2 = [cleanupRequest t (useGPT5 env)] ∧
        completionCalls log3 = [cleanupRequest t (useGPT5 (withArgv env argv2))] ∧
        transcriptionCalls log2 = [] ∧ transcriptionCalls log3 = [] ∧
        beforeCleanup log2 = [] ∧ beforeCleanup log3 = []) := by
  have hsel := audioFilePath_withArgv env argv2 h
  cases hm : falsy env.MISTRAL_API_KEY with
  | true =>
    have hm2 : falsy (withArgv env argv2).MISTRAL_API_KEY = true := hm
    exact Or.inl ⟨[Event.stderr (.missingKey "MISTRAL_API_KEY")],
      by simp [program, hm], by simp [program, hm2], rfl⟩
  | false =>
    have hm2 : falsy (withArgv env argv2).MISTRAL_API_KEY = false := hm
    cases ho : falsy env.OPENAI_API_KEY with
    | true =>
      have ho2 : falsy (withArgv env argv2).OPENAI_API_KEY = true := ho
      exact Or.inl ⟨[Event.stderr (.missingKey "OPENAI_API_KEY")],
        by simp [program, hm, ho], by simp [program, hm2, ho2], rfl⟩
    | false =>
      have ho2 : falsy (withArgv env argv2).OPENAI_API_KEY = false := ho
      cases hf : falsy (audioFilePath env) with
      | true =>
        have hf2 : falsy (audioFilePath (withArgv env argv2)) = true := by rw [hsel]; exact hf
        exact Or.inl ⟨_, program_usage env hm ho hf, program_usage _ hm2 ho2 hf2, rfl⟩
      | false =>
        obtain ⟨p, hp, hne⟩ : ∃ p, audioFilePath env = some p ∧ p ≠ "" := by
          cases hs : audioFilePath env with
          | none => rw [hs] at hf; cases hf
          | some p =>
            refine ⟨p, rfl, ?_⟩
            intro hp
            rw [hs, hp] at hf
            cases hf
        have hp2 : audioFilePath (withArgv env argv2) = some p := by rw [hsel]; exact hp
        obtain ⟨log1, r, h1, hc1, _, _, _⟩ := transcribeAudio_cases env p
        have h1' : transcribeAudio (withArgv env argv2) p = (log1, r) := h1
        cases r with
        | error e =>
          refine Or.inl ⟨_, program_transcribe_error env p log1 e hm ho hp hne h1,
            program_transcribe_error _ p log1 e hm2 ho2 hp2 hne h1', ?_⟩
          simp only [completionCalls, List.filterMap_append] at hc1 ⊢
          rw [hc1]
          rfl
        | ok t =>
          obtain ⟨log2, c, h2, hc2, _, ht2, hb2⟩ :=
            cleanupText_cases env t (some (useGPT5 env))
          obtain ⟨log3, d, h3, hc3, _, ht3, hb3⟩ :=
            cleanupText_cases (withArgv env argv2) t (some (useGPT5 (withArgv env argv2)))
          exact Or.inr ⟨log1, log2, log3, t, c, d,
            program_transcribe_ok env p log1 log2 t c hm ho hp hne h1 h2,
            program_transcribe_ok _ p log1 log3 t d hm2 ho2 hp2 hne h1' h3,
            hc1, hc2, hc3, ht2, ht3, hb2, hb3⟩

/-- C10: the mode flag does not interfere with the earlier stages.  Two runs
whose argument lists differ only in occurrences of `--gpt5` select the same
path, make the same `transcribeAudio` call with the same result, show the same
events outside the cleanup stage (validation and transcription diagnostics,
the transcription request, the failure line) and the same exit code; their
generation requests are built from the same transcript and differ only
through the flag, and every cleanup request has the roles `[system, user]`. -/
theorem mode_flag_noninterference (env : Env) (argv2 : List String)
    (h : (args env).filter (fun a => a != "--gpt5") =
      (args (withArgv env argv2)).filter (fun a => a != "--gpt5")) :
    audioFilePath (withArgv env argv2) = audioFilePath env ∧
    (∀ p, transcribeAudio (withArgv env argv2) p = transcribeAudio env p) ∧
    beforeCleanup (program (withArgv env argv2)).trace = beforeCleanup (program env).trace ∧
    transcriptionCalls (program (withArgv env argv2)).trace =
      transcriptionCalls (program env).trace ∧
    (program (withArgv env argv2)).exitCode = (program env).exitCode ∧
    (∃ ts : List String,
      completionCalls (program env).trace =
        ts.map (fun t => cleanupRequest t (useGPT5 env)) ∧
      completionCalls (program (withArgv env argv2)).trace =
        ts.map (fun t => cleanupRequest t (useGPT5 (withArgv env argv2)))) ∧
    (∀ t b, (cleanupRequest t b).messages.map Message.role = ["system", "user"]) := by
  refine ⟨audioFilePath_withArgv env argv2 h, fun _ => rfl, ?_⟩
  rcases paired_runs env argv2 h with
    ⟨tr, e1, e2, hc⟩ | ⟨log1, log2, log3, t, c, d, e1, e2, hc1, hc2, hc3, ht2, ht3, hb2, hb3⟩
  · rw [e1, e2]
    exact ⟨rfl, rfl, rfl, ⟨[], hc, hc⟩, fun _ _ => rfl⟩
  · rw [e1, e2]
    refine ⟨?_, ?_, rfl, ⟨[t], ?_, ?_⟩, fun _ _ => rfl⟩
    · simp only [beforeCleanup, List.filter_append] at hb2 hb3 ⊢
      rw [hb2, hb3]
      rfl
    · simp only [transcriptionCalls, List.filterMap_append] at ht2 ht3 ⊢
      rw [ht2, ht3]
      rfl
    · simp only [completionCalls, List.filterMap_append] at hc1 hc2 ⊢
      rw [hc1, hc2]
      rfl
    · simp only [completionCalls, List.filterMap_append] at hc1 hc3 ⊢
      rw [hc1, hc3]
      rfl

/-- Witness of C10: the same invocation with and without `--gpt5`. -/
theorem mode_flag_noninterference_witness :
    beforeCleanup
        (program (withArgv degradedEnv ["node", "transcribe.js", "--gpt5", "rec.wav"])).trace =
      beforeCleanup (program degradedEnv).trace :=
  (mode_flag_noninterference degradedEnv ["node", "transcribe.js", "--gpt5", "rec.wav"]
    (by decide)).2.2.1

/-! ## The path helpers on Node's documented examples -/

theorem extname_examples :
    extname "index.html" = ".html" ∧ extname "index.coffee.md" = ".md" ∧
    extname "index." = "." ∧ extname "index" = "" ∧ extname ".index" = "" ∧
    extname ".index.md" = ".md" ∧ extname ".." = "" ∧ extname "..." = "." ∧
    extname "/a.b/c" = "" ∧ extname "/a/c.WAV//" = ".WAV" := by
  decide

theorem basename_examples :
    basename "/tmp/Rec.MP3" = "Rec.MP3" ∧ basename "rec.wav" = "rec.wav" ∧
    basename "/a/b//" = "b" ∧ basename "//" = "" := by
  decide

end Vtt
